import Mathlib

/-!
Verification of the VideoPlayer streaming client and server (src/client.py,
src/server.py, src/config.py).

The development shallowly embeds the protocol logic of the repository:

* the playback scheduler loop of VideoClient.video_player (client.py);
* the Stop-and-Wait control sender ReliableControlSender.send_reliable_command
  (client.py);
* the datagram receiver loop VideoClient.udp_receiver (client.py), including
  its byte-level header parsing and adler32 checksum verification;
* the priority-queue reorder buffer (queue.PriorityQueue used as frame_queue);
* the server command handler VideoServer.handle_control_command and the
  Streamer.run sending loop (server.py).

Machine integers are modelled as Nat; every wire field is 4 bytes big endian
(struct format character I), embedded via be32 and beU32 below.  The pts field
of a data packet is a 32-bit IEEE float on the wire; none of the verified
properties depend on its numeric value, so the model carries its raw 32-bit
pattern.  External library calls (zlib.compress and zlib.decompress) are
passed in as function parameters; zlib_decompress_stored below implements the
real RFC 1950/1951 behaviour of zlib.decompress on streams built from stored
(uncompressed) deflate blocks, which is the family used by the concrete
inputs in this file.
-/

namespace VideoPlayer

/-- Protocol constant from client.py and server.py. -/
def CMD_PLAY : Nat := 1

/-- Protocol constant from client.py and server.py. -/
def CMD_STOP : Nat := 2

/-- Reserved end-of-stream frame id (client.py, server.py): all bits set. -/
def END_OF_STREAM_FRAME_ID : Nat := 0xFFFFFFFF

/-- client.py: PREBUFFER_FRAMES = 10. -/
def PREBUFFER_FRAMES : Nat := 10

/-- client.py: CONTROL_MAX_RETRIES = 5. -/
def CONTROL_MAX_RETRIES : Nat := 5

/-- client.py: CONTROL_TIMEOUT_SECONDS = 0.5, modelled as a rational. -/
def CONTROL_TIMEOUT_SECONDS : ℚ := 1 / 2

/-- client.py: CONTROL_PACKET_HEADER_SIZE = 9 (Type B, SeqNum I, PayloadLen I). -/
def CONTROL_PACKET_HEADER_SIZE : Nat := 9

/-- client.py: DATA_PACKET_HEADER_SIZE = 20 (conn I, frame I, pts f, len I, checksum I). -/
def DATA_PACKET_HEADER_SIZE : Nat := 20

/-- config.py: VIDEO_FPS = 24. -/
def VIDEO_FPS : Nat := 24

/-- Big-endian 4-byte encoding of a 32-bit value, as produced by
struct.pack with format character I (network byte order). -/
def be32 (n : Nat) : List Nat :=
  [n / 16777216 % 256, n / 65536 % 256, n / 256 % 256, n % 256]

/-- Big-endian read of the first 4 bytes of a byte list, as done by
struct.unpack with format character I; 0 when fewer than 4 bytes remain
(such packets never reach a 4-byte read in the embedded code paths). -/
def beU32 : List Nat → Nat
  | b0 :: b1 :: b2 :: b3 :: _ => ((b0 * 256 + b1) * 256 + b2) * 256 + b3
  | _ => 0

/-- One step of the Adler-32 state update: running sums a and b modulo 65521. -/
def adler32Step (p : Nat × Nat) (byte : Nat) : Nat × Nat :=
  ((p.1 + byte) % 65521, (p.2 + (p.1 + byte) % 65521) % 65521)

/-- zlib.adler32 over a byte list (already below 2^32, so the Python mask
with 0xFFFFFFFF is the identity): b * 65536 + a with a starting at 1. -/
def adler32 (bs : List Nat) : Nat :=
  let r := bs.foldl adler32Step (1, 0)
  r.2 * 65536 + r.1

/-- Validity of a 2-byte zlib header (RFC 1950): compression method 8,
window size at most 7, header checksum divisible by 31, no preset dictionary. -/
def zlibHeaderOk : List Nat → Bool
  | b0 :: b1 :: _ =>
    (b0 % 16 == 8) && (b0 / 16 ≤ 7) && ((b0 * 256 + b1) % 31 == 0) &&
      (b1 / 32 % 2 == 0)
  | _ => false

/-- Parse a sequence of stored (BTYPE 00) deflate blocks (RFC 1951):
returns the uncompressed content and the bytes remaining after the final
block.  Fuel bounds the recursion; callers pass the input length. -/
def inflate_stored : Nat → List Nat → Option (List Nat × List Nat)
  | 0, _ => none
  | _ + 1, [] => none
  | fuel + 1, bh :: rest =>
    if bh / 2 % 4 = 0 then
      match rest with
      | l0 :: l1 :: n0 :: n1 :: tail =>
        if l0 + 256 * l1 + (n0 + 256 * n1) = 65535 ∧ l0 + 256 * l1 ≤ tail.length then
          if bh % 2 = 1 then
            some (tail.take (l0 + 256 * l1), tail.drop (l0 + 256 * l1))
          else
            match inflate_stored fuel (tail.drop (l0 + 256 * l1)) with
            | none => none
            | some (c, rem) => some (tail.take (l0 + 256 * l1) ++ c, rem)
        else none
      | _ => none
    else none

/-- zlib.decompress restricted to zlib streams whose deflate body consists of
stored (uncompressed) blocks: header check, block parsing, and the mandatory
trailing Adler-32 of the uncompressed content.  On this family of inputs this
is exactly the behaviour of the real zlib.decompress. -/
def zlib_decompress_stored (b : List Nat) : Option (List Nat) :=
  if zlibHeaderOk b then
    match inflate_stored b.length (b.drop 2) with
    | none => none
    | some (content, rem) =>
      if rem = be32 (adler32 content) then some content else none
  else none

/-! ### Playback scheduler (VideoClient.video_player, client.py lines 447-503)

State visible to the verified claims: expectedFrameId, the shared loss
counter mutated through Metrics.record_loss, the count of played frames and
bytes recorded through Metrics.record_delivery, and the session flags. -/

structure PlayerState where
  expectedFrameId : Nat
  lossCount : Nat
  framesDelivered : Nat
  bytesDelivered : Nat
  streamEnded : Bool
  isPlaying : Bool
  deriving Repr, DecidableEq

/-- The player state at the start of a session (play_video resets
expected_frame_id to 0, client.py line 251). -/
def initPlayerState : PlayerState :=
  { expectedFrameId := 0, lossCount := 0, framesDelivered := 0
    bytesDelivered := 0, streamEnded := false, isPlaying := true }

inductive PlayerEvent where
  | endOfStream : PlayerEvent
  | dropped (expected got : Nat) : PlayerEvent
  | played (frameId size : Nat) : PlayerEvent
  deriving Repr, DecidableEq

/-- One iteration of the playing loop of VideoClient.video_player on a frame
popped from the priority queue, client.py lines 453-497:
the end-of-stream sentinel ends the session; a frame id different from
expected_frame_id records one loss and sets expected_frame_id to the popped
id plus one; a matching frame is played, its bytes are recorded as delivered,
and expected_frame_id advances by one. -/
def video_player_step (st : PlayerState) (frame : Nat × List Nat) :
    PlayerState × PlayerEvent :=
  if frame.1 = END_OF_STREAM_FRAME_ID then
    ({ st with streamEnded := true, isPlaying := false }, PlayerEvent.endOfStream)
  else if frame.1 ≠ st.expectedFrameId then
    ({ st with lossCount := st.lossCount + 1, expectedFrameId := frame.1 + 1 },
      PlayerEvent.dropped st.expectedFrameId frame.1)
  else
    ({ st with framesDelivered := st.framesDelivered + 1,
               bytesDelivered := st.bytesDelivered + frame.2.length,
               expectedFrameId := st.expectedFrameId + 1 },
      PlayerEvent.played frame.1 frame.2.length)

/-- The playing loop run over a list of successively popped frames, stopping
at the end-of-stream sentinel as the code does (break at client.py line 463). -/
def video_player_run (st : PlayerState) : List (Nat × List Nat) → PlayerState
  | [] => st
  | f :: rest =>
    if f.1 = END_OF_STREAM_FRAME_ID then (video_player_step st f).1
    else video_player_run (video_player_step st f).1 rest

/-! ### Reliable control sender (ReliableControlSender.send_reliable_command,
client.py lines 91-145)

Each loop iteration transmits the command once and then performs a single
recvfrom, whose outcome is one of: a socket timeout, a socket or send error
(the generic except branch, which breaks out of the loop), or a reply
datagram.  The events list supplies one outcome per performed receive; an
exhausted list stands for a channel on which nothing further arrives, so
every remaining receive times out. -/

inductive CtrlEvent where
  | timeout : CtrlEvent
  | sockError : CtrlEvent
  | reply (b : List Nat) : CtrlEvent
  deriving Repr, DecidableEq

/-- The acceptance test of client.py lines 119-129: at least 5 bytes, marker
byte equal to 10, echoed sequence (bytes 1-4, big endian) equal to the
sequence just sent. -/
def ack_matches (current : Nat) (b : List Nat) : Bool :=
  decide (5 ≤ b.length) && (b.headD 0 == 10) && (beU32 (b.drop 1) == current)

/-- Metadata extraction of client.py lines 120-126: an ACK of at least
9 bytes carries total_chunks in bytes 5-8; shorter ACKs carry none. -/
def ack_metadata (b : List Nat) : Option Nat :=
  if 9 ≤ b.length then some (beU32 (b.drop 5)) else none

structure SendResult where
  success : Bool
  metadata : Option Nat
  transmissions : Nat
  deriving Repr, DecidableEq

/-- The retry loop of send_reliable_command: the first argument counts the
remaining attempts (starting at CONTROL_MAX_RETRIES), the last counts
transmissions performed so far.  Each attempt transmits once, then consumes
one receive outcome: a matching reply returns success with its metadata, a
socket error aborts with failure, and a timeout or non-matching reply falls
through to the next attempt. -/
def send_reliable_loop (current : Nat) :
    Nat → List CtrlEvent → Nat → SendResult
  | 0, _, tx => { success := false, metadata := none, transmissions := tx }
  | k + 1, [], tx => send_reliable_loop current k [] (tx + 1)
  | k + 1, CtrlEvent.timeout :: rest, tx => send_reliable_loop current k rest (tx + 1)
  | _ + 1, CtrlEvent.sockError :: _, tx =>
    { success := false, metadata := none, transmissions := tx + 1 }
  | k + 1, CtrlEvent.reply b :: rest, tx =>
    if ack_matches current b then
      { success := true, metadata := ack_metadata b, transmissions := tx + 1 }
    else send_reliable_loop current k rest (tx + 1)

/-- ReliableControlSender.send_reliable_command for a fixed assigned sequence
number, run against a schedule of receive outcomes. -/
def send_reliable_command (current : Nat) (events : List CtrlEvent) : SendResult :=
  send_reliable_loop current CONTROL_MAX_RETRIES events 0

/-! ### Datagram receiver (VideoClient.udp_receiver, client.py lines 312-409) -/

/-- Connection id field: first 4 bytes of a data packet, big endian. -/
def pkt_conn (p : List Nat) : Nat := beU32 p

/-- Frame id field: bytes 4-7 of a data packet. -/
def pkt_frame (p : List Nat) : Nat := beU32 (p.drop 4)

/-- Declared payload length field: bytes 12-15 of a data packet. -/
def pkt_len (p : List Nat) : Nat := beU32 (p.drop 12)

/-- Checksum field: bytes 16-19 of a data packet. -/
def pkt_checksum (p : List Nat) : Nat := beU32 (p.drop 16)

/-- Payload: everything after the 20-byte data header. -/
def pkt_payload (p : List Nat) : List Nat := p.drop 20

/-- Insertion into the frame queue; queue.PriorityQueue.put admits the entry
into the pending multiset, modelled as appending to the list of entries. -/
def pq_put (q : List (Nat × List Nat)) (e : Nat × List Nat) :
    List (Nat × List Nat) :=
  q ++ [e]

/-- Extraction contract of queue.PriorityQueue.get on (frameId, data)
entries: the entry with the minimum frame id is removed and returned (among
equal ids, the earliest inserted; the embedded session never holds two
entries with equal ids and distinct data at extraction time). -/
def pq_extract_min : List (Nat × List Nat) →
    Option ((Nat × List Nat) × List (Nat × List Nat))
  | [] => none
  | e :: rest =>
    match pq_extract_min rest with
    | none => some (e, [])
    | some (m, rem) => if e.1 ≤ m.1 then some (e, rest) else some (m, e :: rem)

/-- Successive extraction of up to n frame ids from the queue. -/
def pq_drain : Nat → List (Nat × List Nat) → List Nat
  | 0, _ => []
  | n + 1, q =>
    match pq_extract_min q with
    | none => []
    | some (m, rem) => m.1 :: pq_drain n rem

structure RecvState where
  connId : Option Nat
  lossCount : Nat
  frameCount : Nat
  bytesReceived : Nat
  frame_queue : List (Nat × List Nat)
  streamEnded : Bool
  isReceiving : Bool
  deriving Repr, DecidableEq

/-- Receiver state at session start (conn_id reset to None, client.py 252). -/
def initRecvState : RecvState :=
  { connId := none, lossCount := 0, frameCount := 0, bytesReceived := 0
    frame_queue := [], streamEnded := false, isReceiving := true }

inductive RecvOutcome where
  | ackSkipped : RecvOutcome
  | eosReceived : RecvOutcome
  | lossLenMismatch : RecvOutcome
  | lossChecksum : RecvOutcome
  | lossConnId : RecvOutcome
  | lossDecomp : RecvOutcome
  | inserted (frameId : Nat) : RecvOutcome
  | ignored : RecvOutcome
  deriving Repr, DecidableEq

/-- One iteration of VideoClient.udp_receiver on a received datagram,
client.py lines 319-401, with zlib.decompress abstracted as decomp:
1. a datagram of at least 5 bytes whose first byte is 10 is skipped as a
   stray control ACK (lines 322-327);
2. a datagram of exactly 20 bytes whose frame id field is the end-of-stream
   sentinel ends the session and enqueues the sentinel (lines 333-345);
3. a datagram longer than the 9-byte control header and at least 20 bytes is
   parsed as a data packet: a declared-length mismatch, a checksum mismatch,
   a connection-id mismatch (after the id is latched from the first valid
   packet), or a decompression failure each record one loss and discard;
   otherwise delivery metrics are recorded and (frameId, data) is inserted
   into the frame queue (lines 351-401);
4. anything else is ignored without touching any counter. -/
def udp_receiver_step (decomp : List Nat → Option (List Nat))
    (st : RecvState) (packet : List Nat) : RecvState × RecvOutcome :=
  if 5 ≤ packet.length ∧ packet.headD 0 = 10 then
    (st, RecvOutcome.ackSkipped)
  else if packet.length = DATA_PACKET_HEADER_SIZE ∧
      pkt_frame packet = END_OF_STREAM_FRAME_ID then
    ({ st with streamEnded := true, isReceiving := false,
               frame_queue := pq_put st.frame_queue (END_OF_STREAM_FRAME_ID, []) },
      RecvOutcome.eosReceived)
  else if CONTROL_PACKET_HEADER_SIZE < packet.length ∧
      DATA_PACKET_HEADER_SIZE ≤ packet.length then
    if (pkt_payload packet).length ≠ pkt_len packet then
      ({ st with lossCount := st.lossCount + 1 }, RecvOutcome.lossLenMismatch)
    else if adler32 (pkt_payload packet) ≠ pkt_checksum packet then
      ({ st with lossCount := st.lossCount + 1 }, RecvOutcome.lossChecksum)
    else
      match st.connId with
      | none =>
        match decomp (pkt_payload packet) with
        | none =>
          ({ st with connId := some (pkt_conn packet),
                     lossCount := st.lossCount + 1 }, RecvOutcome.lossDecomp)
        | some frameData =>
          ({ st with connId := some (pkt_conn packet),
                     frameCount := st.frameCount + 1,
                     bytesReceived := st.bytesReceived + packet.length,
                     frame_queue := pq_put st.frame_queue (pkt_frame packet, frameData) },
            RecvOutcome.inserted (pkt_frame packet))
      | some c =>
        if c ≠ pkt_conn packet then
          ({ st with lossCount := st.lossCount + 1 }, RecvOutcome.lossConnId)
        else
          match decomp (pkt_payload packet) with
          | none =>
            ({ st with lossCount := st.lossCount + 1 }, RecvOutcome.lossDecomp)
          | some frameData =>
            ({ st with frameCount := st.frameCount + 1,
                       bytesReceived := st.bytesReceived + packet.length,
                       frame_queue := pq_put st.frame_queue (pkt_frame packet, frameData) },
              RecvOutcome.inserted (pkt_frame packet))
  else (st, RecvOutcome.ignored)

/-- Data-packet serialisation of Streamer.run (server.py line 112): conn id,
frame id, raw pts bit pattern, compressed length, adler32 of the compressed
payload, then the compressed payload. -/
def build_data_packet (conn frame ptsBits : Nat) (compressed : List Nat) :
    List Nat :=
  be32 conn ++ be32 frame ++ be32 ptsBits ++ be32 compressed.length ++
    be32 (adler32 compressed) ++ compressed

/-- A genuine zlib stream (stored block) standing for compressed sender
output: header 78 01, one final stored block of content [0, 2, 0], trailing
Adler-32 00 07 00 03. -/
def orig_compressed : List Nat :=
  [120, 1, 1, 3, 0, 252, 255, 0, 2, 0, 0, 7, 0, 3]

/-- The same stream with its three content bytes mutated to [1, 0, 1]: a
distinct, still valid zlib stream with the same Adler-32 checksum as
orig_compressed (both the stream checksum and the stored-block trailer
collide). -/
def mutated_compressed : List Nat :=
  [120, 1, 1, 3, 0, 252, 255, 1, 0, 1, 0, 7, 0, 3]

/-- A mutated stream whose Adler-32 differs from orig_compressed: the final
trailer byte is changed from 3 to 4. -/
def mutated_compressed_bad : List Nat :=
  [120, 1, 1, 3, 0, 252, 255, 0, 2, 0, 0, 7, 0, 4]

/-- The wire packet carrying mutated_compressed under the checksum the
sender computed over orig_compressed (connection id 1, frame id 0, pts 0). -/
def mutated_packet : List Nat :=
  be32 1 ++ be32 0 ++ be32 0 ++ be32 orig_compressed.length ++
    be32 (adler32 orig_compressed) ++ mutated_compressed

/-- A well-formed data packet whose 4-byte connection id has most
significant byte 10 (conn id 10 * 2^24 + 1): correct length field and
correct checksum over its own payload. -/
def msb_ten_packet : List Nat :=
  build_data_packet (10 * 16777216 + 1) 7 0 orig_compressed

/-- The same well-formed data packet with connection id 1 instead. -/
def conn_one_packet : List Nat :=
  build_data_packet 1 7 0 orig_compressed

/-! ### Server command handler (VideoServer.handle_control_command,
server.py lines 188-271, and send_control_ack, lines 166-186)

The handler state tracks has_active_stream and whether a stream_thread
object exists; whether that thread is still alive at the moment a command
arrives is external timing, supplied per command.  A PLAY command's payload
parsing and file-system lookup are abstracted into the fileExists flag and
the computed totalChunks value. -/

inductive ServerCmd where
  | play (fileExists : Bool) (totalChunks : Nat) : ServerCmd
  | stop : ServerCmd
  deriving Repr, DecidableEq

structure ServerState where
  hasActiveStream : Bool
  hasThread : Bool
  deriving Repr, DecidableEq

inductive ServerEvent where
  | startedStream (seq : Nat) : ServerEvent
  | stoppedStream (seq : Nat) : ServerEvent
  | ackSent (seq : Nat) (meta : Option Nat) : ServerEvent
  deriving Repr, DecidableEq

/-- VideoServer.handle_control_command on a well-formed command:
PLAY with a live active stream is ignored and re-acknowledged without
metadata; PLAY otherwise cleans up any previous thread, refuses a missing
file (ACK without metadata), or starts a new streamer and acknowledges with
total_chunks; STOP tears down an active stream or is a no-op, and is always
acknowledged.  Every path emits exactly one ACK echoing the sequence. -/
def handle_control_command (st : ServerState) (cmd : ServerCmd) (seq : Nat)
    (alive : Bool) : ServerState × List ServerEvent :=
  match cmd with
  | ServerCmd.play fileExists totalChunks =>
    if st.hasActiveStream && st.hasThread && alive then
      (st, [ServerEvent.ackSent seq none])
    else if fileExists then
      ({ hasActiveStream := true, hasThread := true },
        [ServerEvent.startedStream seq, ServerEvent.ackSent seq (some totalChunks)])
    else
      ({ st with hasThread := false }, [ServerEvent.ackSent seq none])
  | ServerCmd.stop =>
    if st.hasActiveStream then
      ({ hasActiveStream := false, hasThread := false },
        [ServerEvent.stoppedStream seq, ServerEvent.ackSent seq none])
    else
      (st, [ServerEvent.ackSent seq none])

/-- The control listener processing a sequence of well-formed commands, each
paired with its sequence number and the liveness of the current stream
thread at arrival time. -/
def server_run (st : ServerState) :
    List (ServerCmd × Nat × Bool) → ServerState × List ServerEvent
  | [] => (st, [])
  | (cmd, seq, alive) :: rest =>
    let r := handle_control_command st cmd seq alive
    let r' := server_run r.1 rest
    (r'.1, r.2 ++ r'.2)

/-- Number of stream starts recorded for a given sequence number. -/
def count_started (seq : Nat) (evs : List ServerEvent) : Nat :=
  (evs.filter fun e => decide (e = ServerEvent.startedStream seq)).length

/-- Sequence numbers of the acknowledgments in an event list, in order. -/
def ack_seqs (evs : List ServerEvent) : List Nat :=
  evs.filterMap fun e =>
    match e with
    | ServerEvent.ackSent s _ => some s
    | _ => none

/-! ### Server streaming loop (Streamer.run, server.py lines 76-137)

Each loop iteration reads the stop event, pulls one chunker result, and
compresses it; these per-iteration observations are supplied as a list.
An exhausted list means the loop is still running (no termination observed),
in which case the run yields none. -/

structure StreamIter where
  stopSet : Bool
  chunk : List Nat
  ptsBits : Nat
  frameId : Nat
  compressed : Option (List Nat)
  isLast : Bool
  deriving Repr, DecidableEq

/-- The end-of-stream marker packet of Streamer.send_end_of_stream_marker
(server.py lines 68-74): sentinel frame id, zero pts, zero length, zero
checksum, no payload. -/
def eos_packet (connId : Nat) : List Nat :=
  be32 connId ++ be32 END_OF_STREAM_FRAME_ID ++ be32 0 ++ be32 0 ++ be32 0

/-- The while loop of Streamer.run: stop when the stop event is set or the
chunker returns no data or after sending the chunk flagged is_last; a
compression error skips the send and continues; every exit from the loop is
followed by the end-of-stream marker.  Returns the list of packets sent, or
none when the supplied iterations end with the loop still running. -/
def streamer_loop (connId : Nat) (sent : List (List Nat)) :
    List StreamIter → Option (List (List Nat))
  | [] => none
  | it :: rest =>
    if it.stopSet then some (sent ++ [eos_packet connId])
    else if it.chunk = [] then some (sent ++ [eos_packet connId])
    else
      match it.compressed with
      | none => streamer_loop connId sent rest
      | some cd =>
        if it.isLast then
          some (sent ++ [build_data_packet connId it.frameId it.ptsBits cd,
                         eos_packet connId])
        else
          streamer_loop connId
            (sent ++ [build_data_packet connId it.frameId it.ptsBits cd]) rest

/-- Streamer.run: when the chunker failed to initialise the thread sends
only the end-of-stream marker and returns (server.py lines 77-80); otherwise
it runs the streaming loop. -/
def streamer_run (connId : Nat) (chunkerOk : Bool) (iters : List StreamIter) :
    Option (List (List Nat)) :=
  if chunkerOk then streamer_loop connId [] iters
  else some [eos_packet connId]

/-! ### Helper lemmas -/

/-- Reading back a big-endian 4-byte encoding recovers the encoded value. -/
theorem beU32_be32_append (n : Nat) (r : List Nat) (h : n < 4294967296) :
    beU32 (be32 n ++ r) = n := by
  simp only [be32, List.cons_append, List.nil_append, beU32]
  omega

/-- Payload of a serialised data packet. -/
theorem pkt_payload_build (c f t l k : Nat) (d : List Nat) :
    pkt_payload (be32 c ++ be32 f ++ be32 t ++ be32 l ++ be32 k ++ d) = d := rfl

/-- Declared-length field of a serialised data packet. -/
theorem pkt_len_build (c f t l k : Nat) (d : List Nat) (h : l < 4294967296) :
    pkt_len (be32 c ++ be32 f ++ be32 t ++ be32 l ++ be32 k ++ d) = l := by
  have e : pkt_len (be32 c ++ be32 f ++ be32 t ++ be32 l ++ be32 k ++ d) =
      beU32 (be32 l ++ (be32 k ++ d)) := rfl
  rw [e, beU32_be32_append l _ h]

/-- Checksum field of a serialised data packet. -/
theorem pkt_checksum_build (c f t l k : Nat) (d : List Nat) (h : k < 4294967296) :
    pkt_checksum (be32 c ++ be32 f ++ be32 t ++ be32 l ++ be32 k ++ d) = k := by
  have e : pkt_checksum (be32 c ++ be32 f ++ be32 t ++ be32 l ++ be32 k ++ d) =
      beU32 (be32 k ++ d) := rfl
  rw [e, beU32_be32_append k _ h]

/-- Frame id field of a serialised data packet. -/
theorem pkt_frame_build (c f t l k : Nat) (d : List Nat) (h : f < 4294967296) :
    pkt_frame (be32 c ++ be32 f ++ be32 t ++ be32 l ++ be32 k ++ d) = f := by
  have e : pkt_frame (be32 c ++ be32 f ++ be32 t ++ be32 l ++ be32 k ++ d) =
      beU32 (be32 f ++ (be32 t ++ (be32 l ++ (be32 k ++ d)))) := rfl
  rw [e, beU32_be32_append f _ h]

/-- First byte of a serialised data packet: the most significant byte of the
connection id. -/
theorem headD_build (c f t l k : Nat) (d : List Nat) :
    (be32 c ++ be32 f ++ be32 t ++ be32 l ++ be32 k ++ d).headD 0 =
      c / 16777216 % 256 := rfl

/-- Length of a serialised data packet. -/
theorem length_build (c f t l k : Nat) (d : List Nat) :
    (be32 c ++ be32 f ++ be32 t ++ be32 l ++ be32 k ++ d).length = 20 + d.length := by
  simp [be32]
  omega

/-- The Adler-32 running sums stay below the modulus. -/
theorem adler32_foldl_bound (l : List Nat) :
    ∀ p : Nat × Nat, p.1 < 65521 → p.2 < 65521 →
      (l.foldl adler32Step p).1 < 65521 ∧ (l.foldl adler32Step p).2 < 65521 := by
  induction l with
  | nil => intro p h1 h2; exact ⟨h1, h2⟩
  | cons b rest ih =>
    intro p h1 h2
    simp only [List.foldl_cons]
    exact ih _ (Nat.mod_lt _ (by norm_num)) (Nat.mod_lt _ (by norm_num))

/-- Adler-32 checksums fit in 32 bits, so the Python mask with 0xFFFFFFFF is
the identity and the checksum survives the big-endian round trip. -/
theorem adler32_lt (l : List Nat) : adler32 l < 4294967296 := by
  have h := adler32_foldl_bound l (1, 0) (by norm_num) (by norm_num)
  have e : adler32 l =
      (l.foldl adler32Step (1, 0)).2 * 65536 + (l.foldl adler32Step (1, 0)).1 := rfl
  rw [e]
  omega

/-- Transmission count of the retry loop: one transmission per attempt. -/
theorem send_reliable_loop_tx_le (current k : Nat) :
    ∀ (events : List CtrlEvent) (tx : Nat),
      (send_reliable_loop current k events tx).transmissions ≤ tx + k := by
  induction k with
  | zero => intro events tx; simp [send_reliable_loop]
  | succ k ih =>
    intro events tx
    cases events with
    | nil =>
      simp only [send_reliable_loop]
      have := ih [] (tx + 1)
      omega
    | cons e rest =>
      cases e with
      | timeout =>
        simp only [send_reliable_loop]
        have := ih rest (tx + 1)
        omega
      | sockError => simp [send_reliable_loop]
      | reply b =>
        simp only [send_reliable_loop]
        cases hb : ack_matches current b with
        | true => simp [hb]
        | false =>
          simp only [hb, Bool.false_eq_true, if_false]
          have := ih rest (tx + 1)
          omega

/-- When no reply in the schedule matches, the retry loop reports failure
with no metadata. -/
theorem send_reliable_loop_no_match (current k : Nat) :
    ∀ (events : List CtrlEvent) (tx : Nat),
      (∀ b, CtrlEvent.reply b ∈ events → ack_matches current b = false) →
      (send_reliable_loop current k events tx).success = false ∧
      (send_reliable_loop current k events tx).metadata = none := by
  induction k with
  | zero => intro events tx _; simp [send_reliable_loop]
  | succ k ih =>
    intro events tx h
    cases events with
    | nil => simpa [send_reliable_loop] using ih [] (tx + 1) (fun b hb => nomatch hb)
    | cons e rest =>
      cases e with
      | timeout =>
        simpa [send_reliable_loop] using
          ih rest (tx + 1) (fun b hb => h b (List.mem_cons_of_mem _ hb))
      | sockError => simp [send_reliable_loop]
      | reply b =>
        have hb : ack_matches current b = false := h b (List.mem_cons_self _ _)
        simpa [send_reliable_loop, hb] using
          ih rest (tx + 1) (fun b' hb' => h b' (List.mem_cons_of_mem _ hb'))

/-- Extraction from a nonempty queue always succeeds. -/
theorem pq_extract_min_isSome (e : Nat × List Nat) (rest : List (Nat × List Nat)) :
    (pq_extract_min (e :: rest)).isSome := by
  unfold pq_extract_min
  cases h : pq_extract_min rest with
  | none => simp
  | some p =>
    obtain ⟨m, rem⟩ := p
    by_cases hle : e.1 ≤ m.1 <;> simp [hle]

/-- The extracted entry has the minimum frame id among all pending entries. -/
theorem pq_extract_min_le (q : List (Nat × List Nat)) :
    ∀ m rem, pq_extract_min q = some (m, rem) → ∀ x ∈ q, m.1 ≤ x.1 := by
  induction q with
  | nil => intro m rem h; simp [pq_extract_min] at h
  | cons e rest ih =>
    intro m rem h x hx
    cases hr : pq_extract_min rest with
    | none =>
      have hrest : rest = [] := by
        cases rest with
        | nil => rfl
        | cons e' rest' =>
          have hs := pq_extract_min_isSome e' rest'
          rw [hr] at hs
          simp at hs
      subst hrest
      simp only [pq_extract_min, Option.some.injEq, Prod.mk.injEq] at h
      simp only [List.mem_singleton] at hx
      subst hx
      exact le_of_eq (congrArg Prod.fst h.1.symm)
    | some p =>
      obtain ⟨m', rem'⟩ := p
      simp only [pq_extract_min, hr] at h
      by_cases hle : e.1 ≤ m'.1
      · rw [if_pos hle] at h
        simp only [Option.some.injEq, Prod.mk.injEq] at h
        obtain ⟨he, _⟩ := h
        subst he
        rcases List.mem_cons.mp hx with hx | hx
        · subst hx; exact le_refl _
        · exact le_trans hle (ih m' rem' hr x hx)
      · rw [if_neg hle] at h
        simp only [Option.some.injEq, Prod.mk.injEq] at h
        obtain ⟨hm, _⟩ := h
        subst hm
        rcases List.mem_cons.mp hx with hx | hx
        · subst hx; exact le_of_not_le hle
        · exact ih m' rem' hr x hx

/-- Every terminating run of the streaming loop ends with the end-of-stream
marker packet. -/
theorem streamer_loop_last_eos (connId : Nat) :
    ∀ (iters : List StreamIter) (acc sent : List (List Nat)),
      streamer_loop connId acc iters = some sent →
      sent.getLast? = some (eos_packet connId) := by
  intro iters
  induction iters with
  | nil => intro acc sent h; simp [streamer_loop] at h
  | cons it rest ih =>
    intro acc sent h
    unfold streamer_loop at h
    by_cases h1 : it.stopSet
    · rw [if_pos h1] at h
      simp only [Option.some.injEq] at h
      rw [← h]
      exact List.getLast?_concat _
    rw [if_neg h1] at h
    by_cases h2 : it.chunk = []
    · rw [if_pos h2] at h
      simp only [Option.some.injEq] at h
      rw [← h]
      exact List.getLast?_concat _
    rw [if_neg h2] at h
    cases hc : it.compressed with
    | none =>
      simp only [hc] at h
      exact ih acc sent h
    | some cd =>
      simp only [hc] at h
      by_cases h3 : it.isLast
      · rw [if_pos h3] at h
        simp only [Option.some.injEq] at h
        rw [← h]
        have e : acc ++ [build_data_packet connId it.frameId it.ptsBits cd,
            eos_packet connId] =
            (acc ++ [build_data_packet connId it.frameId it.ptsBits cd]) ++
              [eos_packet connId] := by simp
        rw [e]
        exact List.getLast?_concat _
      · rw [if_neg h3] at h
        exact ih _ sent h

/-! ### Claim theorems -/

/-- C1 counterexample: with expectedFrameId 5 and delivered id 8 the player
records exactly one drop event, not the three the claim states (the code
increments the loss counter once per gap, not once per missing id). -/
theorem c1_claim_counterexample :
    (video_player_step { initPlayerState with expectedFrameId := 5 } (8, [])).1.lossCount = 1 ∧
    ¬ (video_player_step { initPlayerState with expectedFrameId := 5 } (8, [])).1.lossCount = 3 ∧
    (video_player_step { initPlayerState with expectedFrameId := 5 } (8, [])).1.expectedFrameId = 9 := by
  decide

/-- C1 (amended): when the popped frame id is strictly greater than
expectedFrameId (and not the end-of-stream sentinel), the player records
exactly one drop event regardless of the gap size and sets expectedFrameId
to frameId + 1; in particular with expectedFrameId 5 and delivered id 8,
exactly 1 drop event is recorded and expectedFrameId becomes 9. -/
theorem c1_gap_one_drop (st : PlayerState) (f : Nat) (d : List Nat)
    (hgt : st.expectedFrameId < f) (hne : f ≠ END_OF_STREAM_FRAME_ID) :
    video_player_step st (f, d) =
      ({ st with lossCount := st.lossCount + 1, expectedFrameId := f + 1 },
        PlayerEvent.dropped st.expectedFrameId f) := by
  have h1 : f ≠ st.expectedFrameId := by omega
  simp [video_player_step, hne, h1]

/-- Witness for C1 at the concrete input of the claim. -/
theorem c1_gap_one_drop_witness :
    video_player_step { initPlayerState with expectedFrameId := 5 } (8, []) =
      ({ initPlayerState with expectedFrameId := 9, lossCount := 1 },
        PlayerEvent.dropped 5 8) := by
  have h := c1_gap_one_drop { initPlayerState with expectedFrameId := 5 } 8 []
    (by decide) (by decide)
  rw [h]
  rfl

/-- C2 counterexample: a stale frame (id 2 behind expectation 5) is not
silently discarded: the loss counter is incremented and expectedFrameId is
rewound to 3, contradicting the claim that no counter changes and
expectedFrameId is unchanged. -/
theorem c2_claim_counterexample :
    (video_player_step { initPlayerState with expectedFrameId := 5 } (2, [])).1.lossCount = 1 ∧
    (video_player_step { initPlayerState with expectedFrameId := 5 } (2, [])).1.expectedFrameId = 3 ∧
    ¬ ((video_player_step { initPlayerState with expectedFrameId := 5 } (2, [])).1.lossCount = 0 ∧
       (video_player_step { initPlayerState with expectedFrameId := 5 } (2, [])).1.expectedFrameId = 5) := by
  decide

/-- C2 (amended): a frame whose id is strictly less than expectedFrameId is
not played, but the code treats it exactly like a gap: one loss event is
recorded and expectedFrameId is set to frameId + 1, which rewinds it. -/
theorem c2_stale_frame_counted (st : PlayerState) (f : Nat) (d : List Nat)
    (hlt : f < st.expectedFrameId) (hne : f ≠ END_OF_STREAM_FRAME_ID) :
    video_player_step st (f, d) =
      ({ st with lossCount := st.lossCount + 1, expectedFrameId := f + 1 },
        PlayerEvent.dropped st.expectedFrameId f) := by
  have h1 : f ≠ st.expectedFrameId := by omega
  simp [video_player_step, hne, h1]

/-- Witness for C2 at the concrete stale input. -/
theorem c2_stale_frame_counted_witness :
    video_player_step { initPlayerState with expectedFrameId := 5 } (2, []) =
      ({ initPlayerState with expectedFrameId := 3, lossCount := 1 },
        PlayerEvent.dropped 5 2) := by
  have h := c2_stale_frame_counted { initPlayerState with expectedFrameId := 5 } 2 []
    (by decide) (by decide)
  rw [h]
  rfl

/-- C3 counterexample: expectedFrameId is not monotonically non-decreasing
within a session: from the initial state, popping frame 5 moves it to 6 and
then popping the late frame 1 rewinds it to 2. -/
theorem c3_claim_counterexample :
    (video_player_run initPlayerState [(5, [])]).expectedFrameId = 6 ∧
    (video_player_run initPlayerState [(5, []), (1, [])]).expectedFrameId = 2 ∧
    (2 : Nat) < 6 := by
  decide

/-- C3 (amended): expectedFrameId advances by exactly one for each
successfully played frame; for any mismatched frame it is set to
frameId + 1, so one scheduler step is non-decreasing exactly when the popped
frame id is at least expectedFrameId - 1. -/
theorem c3_expected_advance (st : PlayerState) (f : Nat) (d : List Nat)
    (hne : f ≠ END_OF_STREAM_FRAME_ID) :
    (f = st.expectedFrameId →
      (video_player_step st (f, d)).1.expectedFrameId = st.expectedFrameId + 1) ∧
    (f ≠ st.expectedFrameId →
      (video_player_step st (f, d)).1.expectedFrameId = f + 1) ∧
    (st.expectedFrameId ≤ f + 1 →
      st.expectedFrameId ≤ (video_player_step st (f, d)).1.expectedFrameId) := by
  have hplay : f = st.expectedFrameId →
      (video_player_step st (f, d)).1.expectedFrameId = st.expectedFrameId + 1 := by
    intro hf
    subst hf
    simp [video_player_step, hne]
  have hdrop : f ≠ st.expectedFrameId →
      (video_player_step st (f, d)).1.expectedFrameId = f + 1 := by
    intro hf
    simp [video_player_step, hne, hf]
  refine ⟨hplay, hdrop, ?_⟩
  intro h
  by_cases h2 : f = st.expectedFrameId
  · rw [hplay h2]
    omega
  · rw [hdrop h2]
    omega

/-- Witness for C3 at a concrete played frame. -/
theorem c3_expected_advance_witness :
    (video_player_step { initPlayerState with expectedFrameId := 3 } (3, [])).1.expectedFrameId = 3 + 1 :=
  (c3_expected_advance { initPlayerState with expectedFrameId := 3 } 3 []
    (by decide)).1 (by decide)

/-- C4: send_reliable_command performs at most CONTROL_MAX_RETRIES = 5
transmissions; an acknowledgment is accepted only with marker byte 10 and an
echoed sequence equal to the one just sent, and if no reply in the schedule
matches, the call returns failure with no metadata; the per-attempt receive
timeout constant is 500 ms. -/
theorem c4_retry_bound_and_failure (current : Nat) (events : List CtrlEvent)
    (h : ∀ b, CtrlEvent.reply b ∈ events → ack_matches current b = false) :
    (send_reliable_command current events).success = false ∧
    (send_reliable_command current events).metadata = none ∧
    (∀ (c : Nat) (e : List CtrlEvent),
      (send_reliable_command c e).transmissions ≤ CONTROL_MAX_RETRIES) ∧
    CONTROL_MAX_RETRIES = 5 ∧ CONTROL_TIMEOUT_SECONDS * 1000 = 500 := by
  refine ⟨(send_reliable_loop_no_match current CONTROL_MAX_RETRIES events 0 h).1,
          (send_reliable_loop_no_match current CONTROL_MAX_RETRIES events 0 h).2,
          fun c e => ?_, rfl, by norm_num [CONTROL_TIMEOUT_SECONDS]⟩
  have := send_reliable_loop_tx_le c CONTROL_MAX_RETRIES e 0
  simpa [send_reliable_command] using this

/-- Witness for C4: a schedule on which nothing ever arrives. -/
theorem c4_retry_bound_and_failure_witness :
    (send_reliable_command 0 []).success = false ∧
    (send_reliable_command 0 []).metadata = none :=
  ⟨(c4_retry_bound_and_failure 0 [] (fun _ hb => nomatch hb)).1,
   (c4_retry_bound_and_failure 0 [] (fun _ hb => nomatch hb)).2.1⟩

/-- C5 counterexample: non-matching replies alone consume retry attempts.
Five wrong-sequence acknowledgments, with no timeout ever elapsing, exhaust
all five attempts and fail the call; and after one wrong reply followed by
the matching one, two transmissions have been performed, not the single one
the claim implies. -/
theorem c5_claim_counterexample :
    send_reliable_command 0
        (List.replicate 5 (CtrlEvent.reply (10 :: be32 1))) =
      { success := false, metadata := none, transmissions := 5 } ∧
    (send_reliable_command 0
        [CtrlEvent.reply (10 :: be32 1), CtrlEvent.reply (10 :: be32 0)]).transmissions = 2 ∧
    ¬ (send_reliable_command 0
        [CtrlEvent.reply (10 :: be32 1), CtrlEvent.reply (10 :: be32 0)]).transmissions = 1 := by
  decide

/-- C5 (amended): each attempt performs a single receive, so a non-matching
reply ends the current attempt immediately and triggers a retransmission;
it is not re-awaited within the same timeout window. -/
theorem c5_mismatch_ends_attempt (current k tx : Nat) (b : List Nat)
    (rest : List CtrlEvent) (h : ack_matches current b = false) :
    send_reliable_loop current (k + 1) (CtrlEvent.reply b :: rest) tx =
      send_reliable_loop current k rest (tx + 1) := by
  simp [send_reliable_loop, h]

/-- Witness for C5 at a concrete wrong-sequence reply. -/
theorem c5_mismatch_ends_attempt_witness :
    send_reliable_loop 0 1 [CtrlEvent.reply (10 :: be32 1)] 0 =
      send_reliable_loop 0 0 [] 1 :=
  c5_mismatch_ends_attempt 0 0 0 (10 :: be32 1) [] (by decide)

/-- C6 counterexample: the all-mutations part of the claim fails.  The
packet mutated_packet carries mutated_compressed under the checksum the
sender computed over orig_compressed; the mutation preserves the Adler-32
value and yields a byte string that zlib.decompress still accepts, so the
mutated packet is admitted to the reorder buffer and the loss counter does
not change. -/
theorem c6_claim_counterexample :
    mutated_compressed ≠ orig_compressed ∧
    adler32 mutated_compressed = adler32 orig_compressed ∧
    zlib_decompress_stored mutated_compressed = some [1, 0, 1] ∧
    udp_receiver_step zlib_decompress_stored initRecvState mutated_packet =
      ({ initRecvState with
          connId := some 1, frameCount := 1,
          bytesReceived := 34, frame_queue := [(0, [1, 0, 1])] },
        RecvOutcome.inserted 0) ∧
    (udp_receiver_step zlib_decompress_stored initRecvState mutated_packet).1.lossCount =
      initRecvState.lossCount := by
  decide

/-- C6 (amended): provided the connection id does not have 10 as its most
significant byte (otherwise the receive loop misroutes the whole packet as a
stray control acknowledgment and skips it with no loss counted, as the
second conjunct shows), a data packet whose payload was mutated after the
sender computed the checksum is never inserted and increments the loss
counter by exactly 1 whenever the mutation changes the payload length, or
changes the Adler-32 value, or breaks decompression — covering every
mutation except an Adler-32 collision that still decompresses; and every
packet that is inserted has passed the length check, the checksum check,
and, when a connection id was already latched, the connection-id check. -/
theorem c6_checksum_validation (decomp : List Nat → Option (List Nat))
    (st : RecvState) (conn frame pts : Nat) (orig mb : List Nat)
    (hconn10 : conn / 16777216 % 256 ≠ 10)
    (hf32 : frame < 4294967296)
    (hfne : frame ≠ END_OF_STREAM_FRAME_ID)
    (horig : orig.length < 4294967296)
    (hbad : mb.length ≠ orig.length ∨ adler32 mb ≠ adler32 orig ∨
      decomp mb = none) :
    ((udp_receiver_step decomp st
        (be32 conn ++ be32 frame ++ be32 pts ++ be32 orig.length ++
          be32 (adler32 orig) ++ mb)).1.lossCount = st.lossCount + 1 ∧
     (udp_receiver_step decomp st
        (be32 conn ++ be32 frame ++ be32 pts ++ be32 orig.length ++
          be32 (adler32 orig) ++ mb)).1.frame_queue = st.frame_queue ∧
     ∀ f, (udp_receiver_step decomp st
        (be32 conn ++ be32 frame ++ be32 pts ++ be32 orig.length ++
          be32 (adler32 orig) ++ mb)).2 ≠ RecvOutcome.inserted f) ∧
    (∀ conn10, conn10 / 16777216 % 256 = 10 →
      udp_receiver_step decomp st
        (be32 conn10 ++ be32 frame ++ be32 pts ++ be32 orig.length ++
          be32 (adler32 orig) ++ mb) = (st, RecvOutcome.ackSkipped)) ∧
    (∀ (p : List Nat) (st' : RecvState) (f : Nat),
      udp_receiver_step decomp st p = (st', RecvOutcome.inserted f) →
      (pkt_payload p).length = pkt_len p ∧
      adler32 (pkt_payload p) = pkt_checksum p ∧
      ∀ c, st.connId = some c → c = pkt_conn p) := by
  refine ⟨?_, ?_, ?_⟩
  · have hhead := headD_build conn frame pts orig.length (adler32 orig) mb
    have hlength := length_build conn frame pts orig.length (adler32 orig) mb
    have hpay := pkt_payload_build conn frame pts orig.length (adler32 orig) mb
    have hframe := pkt_frame_build conn frame pts orig.length (adler32 orig) mb hf32
    have hlenf := pkt_len_build conn frame pts orig.length (adler32 orig) mb horig
    have hchk := pkt_checksum_build conn frame pts orig.length (adler32 orig) mb
      (adler32_lt orig)
    unfold udp_receiver_step
    rw [if_neg (by
      intro hx
      exact hconn10 (hhead ▸ hx.2))]
    rw [if_neg (by
      intro hx
      exact hfne (hframe ▸ hx.2))]
    rw [if_pos (by
      constructor
      · unfold CONTROL_PACKET_HEADER_SIZE
        omega
      · unfold DATA_PACKET_HEADER_SIZE
        omega)]
    rw [hpay, hlenf, hchk]
    by_cases hL : mb.length ≠ orig.length
    · rw [if_pos hL]
      exact ⟨rfl, rfl, fun f => by simp⟩
    rw [if_neg hL]
    by_cases hA : adler32 mb ≠ adler32 orig
    · rw [if_pos hA]
      exact ⟨rfl, rfl, fun f => by simp⟩
    rw [if_neg hA]
    have hD : decomp mb = none := by
      rcases hbad with h | h | h
      · exact absurd h hL
      · exact absurd h hA
      · exact h
    cases hcs : st.connId with
    | none => simp [hcs, hD]
    | some c =>
      simp only [hcs]
      by_cases hc : c ≠ pkt_conn (be32 conn ++ be32 frame ++ be32 pts ++
          be32 orig.length ++ be32 (adler32 orig) ++ mb)
      · rw [if_pos hc]
        exact ⟨rfl, rfl, fun f => by simp⟩
      · rw [if_neg hc]
        simp [hD]
  · intro conn10 hc10
    have hhead := headD_build conn10 frame pts orig.length (adler32 orig) mb
    have hlength := length_build conn10 frame pts orig.length (adler32 orig) mb
    unfold udp_receiver_step
    rw [if_pos ⟨by omega, hhead.trans hc10⟩]
  · intro p st' f heq
    unfold udp_receiver_step at heq
    by_cases h1 : 5 ≤ p.length ∧ p.headD 0 = 10
    · rw [if_pos h1] at heq
      simp at heq
    rw [if_neg h1] at heq
    by_cases h2 : p.length = DATA_PACKET_HEADER_SIZE ∧
        pkt_frame p = END_OF_STREAM_FRAME_ID
    · rw [if_pos h2] at heq
      simp at heq
    rw [if_neg h2] at heq
    by_cases h3 : CONTROL_PACKET_HEADER_SIZE < p.length ∧
        DATA_PACKET_HEADER_SIZE ≤ p.length
    case neg =>
      rw [if_neg h3] at heq
      simp at heq
    rw [if_pos h3] at heq
    by_cases h4 : (pkt_payload p).length ≠ pkt_len p
    · rw [if_pos h4] at heq
      simp at heq
    rw [if_neg h4] at heq
    by_cases h5 : adler32 (pkt_payload p) ≠ pkt_checksum p
    · rw [if_pos h5] at heq
      simp at heq
    rw [if_neg h5] at heq
    refine ⟨of_not_not h4, of_not_not h5, ?_⟩
    intro c hc
    rw [hc] at heq
    simp only at heq
    by_cases h6 : c ≠ pkt_conn p
    · rw [if_pos h6] at heq
      simp at heq
    · exact of_not_not h6

/-- Witness for C6 at three concrete mutations of orig_compressed: one that
changes the Adler-32 value (final byte altered), one that changes the
payload length, and one that breaks decompression; each records exactly one
loss event. -/
theorem c6_checksum_validation_witness :
    (udp_receiver_step zlib_decompress_stored initRecvState
        (be32 1 ++ be32 0 ++ be32 0 ++ be32 orig_compressed.length ++
          be32 (adler32 orig_compressed) ++ mutated_compressed_bad)).1.lossCount =
      initRecvState.lossCount + 1 ∧
    (udp_receiver_step zlib_decompress_stored initRecvState
        (be32 1 ++ be32 0 ++ be32 0 ++ be32 orig_compressed.length ++
          be32 (adler32 orig_compressed) ++ [9, 9, 9])).1.lossCount =
      initRecvState.lossCount + 1 ∧
    (udp_receiver_step zlib_decompress_stored initRecvState
        (be32 1 ++ be32 0 ++ be32 0 ++ be32 orig_compressed.length ++
          be32 (adler32 orig_compressed) ++ List.replicate 14 0)).1.lossCount =
      initRecvState.lossCount + 1 :=
  ⟨(c6_checksum_validation zlib_decompress_stored initRecvState 1 0 0
      orig_compressed mutated_compressed_bad (by decide) (by decide) (by decide)
      (by decide) (Or.inr (Or.inl (by decide)))).1.1,
   (c6_checksum_validation zlib_decompress_stored initRecvState 1 0 0
      orig_compressed [9, 9, 9] (by decide) (by decide) (by decide)
      (by decide) (Or.inl (by decide))).1.1,
   (c6_checksum_validation zlib_decompress_stored initRecvState 1 0 0
      orig_compressed (List.replicate 14 0) (by decide) (by decide) (by decide)
      (by decide) (Or.inr (Or.inr (by decide)))).1.1⟩

/-- C7: extraction from the reorder buffer always yields an entry whose
frame id is minimal among the pending entries, and inserting frame ids
3, 1, 2, 0 in that order and then extracting four times yields 0, 1, 2, 3. -/
theorem c7_reorder_min_extraction :
    (∀ (q : List (Nat × List Nat)) (m : Nat × List Nat)
        (rem : List (Nat × List Nat)),
        pq_extract_min q = some (m, rem) → ∀ x ∈ q, m.1 ≤ x.1) ∧
    pq_drain 4 (pq_put (pq_put (pq_put (pq_put [] (3, [3])) (1, [1])) (2, [2])) (0, [0])) =
      [0, 1, 2, 3] :=
  ⟨fun q => pq_extract_min_le q, by decide⟩

/-- Witness for C7 at a concrete two-entry queue. -/
theorem c7_reorder_min_extraction_witness :
    pq_extract_min [(3, [3]), (1, [1])] = some ((1, [1]), [(3, [3])]) ∧
    (1 : Nat) ≤ 3 :=
  ⟨by decide,
    c7_reorder_min_extraction.1 [(3, [3]), (1, [1])] (1, [1]) [(3, [3])]
      (by decide) (3, [3]) (by decide)⟩

/-- C8 counterexample: the server does not deduplicate by sequence number.
Two identical PLAY commands with sequence 0 (a retransmission), the second
arriving after the first stream thread already finished (alive = false),
start a stream twice for the same sequence number. -/
theorem c8_claim_counterexample :
    count_started 0 (server_run { hasActiveStream := false, hasThread := false }
      [(ServerCmd.play true 7, 0, true), (ServerCmd.play true 7, 0, false)]).2 = 2 ∧
    ¬ count_started 0 (server_run { hasActiveStream := false, hasThread := false }
      [(ServerCmd.play true 7, 0, true), (ServerCmd.play true 7, 0, false)]).2 = 1 := by
  decide

/-- C8 (amended): every well-formed command is acknowledged with exactly one
ACK echoing its sequence number (a no-op STOP included), but PLAY execution
is gated only on the liveness of the current stream thread, not on sequence
numbers: a PLAY starts a stream exactly when its file exists and no live
active stream is registered, and a STOP never starts one. -/
theorem c8_ack_always_liveness_gated (st : ServerState) (cmd : ServerCmd)
    (seq : Nat) (alive : Bool) :
    ack_seqs (handle_control_command st cmd seq alive).2 = [seq] ∧
    (∀ (fe : Bool) (k : Nat),
      count_started seq (handle_control_command st (ServerCmd.play fe k) seq alive).2 =
        if fe && !(st.hasActiveStream && st.hasThread && alive) then 1 else 0) ∧
    count_started seq (handle_control_command st ServerCmd.stop seq alive).2 = 0 := by
  obtain ⟨hact, hthr⟩ := st
  refine ⟨?_, ?_, ?_⟩
  · cases cmd with
    | play fe k =>
      cases hact <;> cases hthr <;> cases alive <;> cases fe <;>
        simp [handle_control_command, ack_seqs]
    | stop =>
      cases hact <;> simp [handle_control_command, ack_seqs]
  · intro fe k
    cases hact <;> cases hthr <;> cases alive <;> cases fe <;>
      simp [handle_control_command, count_started]
  · cases hact <;> simp [handle_control_command, count_started]

/-- C9: on every terminating path of Streamer.run (end of file after the
final segment, external stop signal with segments unsent, and a chunker
that failed to initialise), the last packet emitted is the end-of-stream
sentinel packet. -/
theorem c9_eos_always_sent (connId : Nat) (chunkerOk : Bool)
    (iters : List StreamIter) (sent : List (List Nat))
    (h : streamer_run connId chunkerOk iters = some sent) :
    sent.getLast? = some (eos_packet connId) := by
  unfold streamer_run at h
  cases chunkerOk with
  | true =>
    rw [if_pos rfl] at h
    exact streamer_loop_last_eos connId iters [] sent h
  | false =>
    rw [if_neg (by simp)] at h
    simp only [Option.some.injEq] at h
    rw [← h]
    rfl

/-- Witness for C9: a one-segment stream flagged is_last emits the data
packet followed by the end-of-stream marker. -/
theorem c9_eos_always_sent_witness :
    List.getLast? [build_data_packet 1 0 0 [7], eos_packet 1] =
      some (eos_packet 1) :=
  c9_eos_always_sent 1 true
    [{ stopSet := false, chunk := [5], ptsBits := 0, frameId := 0,
       compressed := some [7], isLast := true }]
    [build_data_packet 1 0 0 [7], eos_packet 1] (by decide)

/-- C10: any datagram of at least 5 bytes whose first byte is 10 is
discarded as a stray control acknowledgment, with no state change and no
loss counted, whatever decompression does; in particular the otherwise
valid data packet msb_ten_packet, whose connection id has most significant
byte 10, is silently discarded, while the identical packet with connection
id 1 is admitted to the reorder buffer. -/
theorem c10_ack_marker_discards_data (decomp : List Nat → Option (List Nat))
    (st : RecvState) (p : List Nat) (h5 : 5 ≤ p.length) (h10 : p.headD 0 = 10) :
    udp_receiver_step decomp st p = (st, RecvOutcome.ackSkipped) ∧
    udp_receiver_step zlib_decompress_stored initRecvState msb_ten_packet =
      (initRecvState, RecvOutcome.ackSkipped) ∧
    udp_receiver_step zlib_decompress_stored initRecvState conn_one_packet =
      ({ initRecvState with
          connId := some 1, frameCount := 1,
          bytesReceived := 34, frame_queue := [(7, [0, 2, 0])] },
        RecvOutcome.inserted 7) := by
  refine ⟨?_, by decide, by decide⟩
  unfold udp_receiver_step
  rw [if_pos ⟨h5, h10⟩]

/-- Witness for C10 at a concrete 5-byte acknowledgment datagram. -/
theorem c10_ack_marker_discards_data_witness :
    udp_receiver_step zlib_decompress_stored initRecvState [10, 0, 0, 0, 0] =
      (initRecvState, RecvOutcome.ackSkipped) :=
  (c10_ack_marker_discards_data zlib_decompress_stored initRecvState
    [10, 0, 0, 0, 0] (by decide) (by decide)).1

end VideoPlayer
